import Mathlib

/-!
Shallow embedding of the ticket-processing system (src/) for checking its
natural-language specification.

Conventions of the embedding:
* timestamps are `Nat` instants (the code stores `datetime.now().isoformat()`
  strings; only their ordering is relevant to the spec);
* the Redis ticket keyspace is an association list from keys to persisted
  ticket records, newest binding first (so lookup sees the last write);
* the oracle inputs of the code (`uuid.uuid4()`, `datetime.now()`, the LLM
  reply, success of the underlying Redis calls) are explicit parameters;
* fallible operations return `Except`/`Option` mirroring the Python
  exceptions.
-/

namespace TicketSystem

/-- Ticket lifecycle status, from `TicketStatus` in src/models/ticket.py. -/
inductive TicketStatus
  | uninitialized
  | processing
  | done
deriving DecidableEq, Repr

/-- Serialized string value of a status (the enum values in src/models/ticket.py). -/
def TicketStatus.toStr : TicketStatus → String
  | .uninitialized => "uninitialized"
  | .processing => "processing"
  | .done => "done"

/-- Parse a serialized status string; `none` when the string is not a valid enum value. -/
def TicketStatus.ofStr : String → Option TicketStatus
  | "uninitialized" => some .uninitialized
  | "processing" => some .processing
  | "done" => some .done
  | _ => none

/-- Rank of a status in the lifecycle order UNINITIALIZED → PROCESSING → DONE. -/
def TicketStatus.rank : TicketStatus → Nat
  | .uninitialized => 0
  | .processing => 1
  | .done => 2

/-- Ticket entity, from the pydantic model `Ticket` in src/models/ticket.py. -/
structure Ticket where
  id : String
  question : String
  status : TicketStatus
  created_at : Nat
  updated_at : Nat
  answer : Option String
  note : Option String
deriving DecidableEq, Repr

/-- Persisted shape of a ticket (the JSON object produced by `model_dump_json`):
the status is stored as its string value, optional fields as optional strings. -/
structure TicketRecord where
  id : String
  question : String
  status : String
  created_at : Nat
  updated_at : Nat
  answer : Option String
  note : Option String
deriving DecidableEq, Repr

/-- Serialization `Ticket.model_dump_json` / `to_dict` (src/models/ticket.py). -/
def Ticket.to_dict (t : Ticket) : TicketRecord :=
  ⟨t.id, t.question, t.status.toStr, t.created_at, t.updated_at, t.answer, t.note⟩

/-- Deserialization `Ticket.model_validate_json` / `from_dict` (src/models/ticket.py);
pydantic validation fails when the stored status string is not a valid enum value. -/
def Ticket.from_dict (r : TicketRecord) : Option Ticket :=
  match TicketStatus.ofStr r.status with
  | some st => some ⟨r.id, r.question, st, r.created_at, r.updated_at, r.answer, r.note⟩
  | none => none

/-- The Redis ticket keyspace: key/value pairs, newest binding first. -/
abbrev TicketStore := List (String × TicketRecord)

/-- Redis `SET key value` on the ticket keyspace (last write wins on lookup). -/
def redis_set (store : TicketStore) (key : String) (value : TicketRecord) : TicketStore :=
  (key, value) :: store

/-- Redis `GET key` on the ticket keyspace. -/
def redis_get (store : TicketStore) (key : String) : Option TicketRecord :=
  (store.find? (fun p => p.1 == key)).map (·.2)

/-- Key under which a ticket is stored: `key_prefix` is `"ticket:"`
(src/repositories/ticket_repository.py). -/
def ticket_key (ticket_id : String) : String :=
  "ticket:" ++ ticket_id

/-- `RedisTicketRepository.save_ticket` (src/repositories/ticket_repository.py),
healthy backend path: `SET ticket:<id> <dump>`. -/
def save_ticket (store : TicketStore) (t : Ticket) : TicketStore :=
  redis_set store (ticket_key t.id) t.to_dict

/-- `RedisTicketRepository.get_ticket` (src/repositories/ticket_repository.py),
healthy backend path: `GET ticket:<id>`, `None` when absent, otherwise
`model_validate_json`. The retry wrapper around the flaky backend is modelled
separately by `get_ticket_with_retry`. -/
def get_ticket (store : TicketStore) (ticket_id : String) : Option Ticket :=
  (redis_get store (ticket_key ticket_id)).bind Ticket.from_dict

/-- `RedisTicketRepository.update_ticket`: reassigns `updated_at` to its own
current value (a no-op) and then delegates to `save_ticket`. -/
def update_ticket (store : TicketStore) (t : Ticket) : TicketStore :=
  save_ticket store { t with updated_at := t.updated_at }

/-- Errors surfaced by the ticket service (src/core/exceptions.py). -/
inductive ServiceError
  | ticketNotFound (ticket_id : String)
deriving DecidableEq, Repr

/-- `TicketService.get_ticket_data` (src/services/ticket_service.py): loads the
ticket, raising `TicketNotFoundException` when the repository returns nothing. -/
def get_ticket_data (store : TicketStore) (ticket_id : String) : Except ServiceError Ticket :=
  match get_ticket store ticket_id with
  | none => .error (.ticketNotFound ticket_id)
  | some t => .ok t

/-- `TicketService.get_ticket_status`: projection of `get_ticket_data` to the status. -/
def get_ticket_status (store : TicketStore) (ticket_id : String) :
    Except ServiceError TicketStatus :=
  (get_ticket_data store ticket_id).map (·.status)

/-- The field mutation performed by `TicketService.update_ticket_status`:
set `status`, refresh `updated_at`. -/
def Ticket.with_status (t : Ticket) (status : TicketStatus) (now : Nat) : Ticket :=
  { t with status := status, updated_at := now }

/-- The field mutation performed by `TicketService.update_ticket_answer`:
set `answer`, force `status = DONE`, refresh `updated_at`. -/
def Ticket.with_answer (t : Ticket) (answer : String) (now : Nat) : Ticket :=
  { t with answer := some answer, status := .done, updated_at := now }

/-- `TicketService.update_ticket_status` (src/services/ticket_service.py):
load, mutate status and `updated_at`, persist; `now` is the oracle input
`datetime.now()`. -/
def update_ticket_status (store : TicketStore) (ticket_id : String)
    (status : TicketStatus) (now : Nat) : Except ServiceError TicketStore :=
  (get_ticket_data store ticket_id).map
    (fun t => update_ticket store (t.with_status status now))

/-- `TicketService.update_ticket_answer` (src/services/ticket_service.py):
load, set the answer, force `status = DONE`, refresh `updated_at`, persist. -/
def update_ticket_answer (store : TicketStore) (ticket_id : String)
    (answer : String) (now : Nat) : Except ServiceError TicketStore :=
  (get_ticket_data store ticket_id).map
    (fun t => update_ticket store (t.with_answer answer now))

/-- The ticket object constructed by `TicketService.create_ticket`:
fresh id, `status=UNINITIALIZED`, both timestamps set to the current time,
no answer, no note. -/
def created_ticket (question uuid : String) (now : Nat) : Ticket :=
  { id := uuid, question := question, status := .uninitialized,
    created_at := now, updated_at := now, answer := none, note := none }

/-- Durable externally visible effects of `create_ticket`, in execution order. -/
inductive CreateEffect
  | savedTicket (t : Ticket)
  | publishedCreated (ticket_id : String)
deriving DecidableEq, Repr

/-- Failures of `create_ticket`: the repository save raising
`DatabaseException`, or the stream publish raising `MessageBrokerException`. -/
inductive CreateError
  | persistFailed
  | enqueueFailed
deriving DecidableEq, Repr

/-- Result of one `create_ticket` call: the returned ticket id (or the
propagated exception), the resulting store, and the ordered durable effects. -/
structure CreateOutcome where
  result : Except CreateError String
  store : TicketStore
  effects : List CreateEffect
deriving Repr

/-- `TicketService.create_ticket` (src/services/ticket_service.py): build the
ticket, save it, then publish `ticket.created` with the ticket id. `uuid` and
`now` are the oracle inputs `uuid.uuid4()` and `datetime.now()`; `saveOk` and
`publishOk` tell whether the underlying Redis `SET` and `XADD` succeed. On a
failed save nothing is stored and the publish never runs. -/
def create_ticket (store : TicketStore) (question uuid : String) (now : Nat)
    (saveOk publishOk : Bool) : CreateOutcome :=
  let ticket := created_ticket question uuid now
  if saveOk then
    let store1 := save_ticket store ticket
    if publishOk then
      { result := .ok uuid, store := store1,
        effects := [.savedTicket ticket, .publishedCreated uuid] }
    else
      { result := .error .enqueueFailed, store := store1,
        effects := [.savedTicket ticket] }
  else
    { result := .error .persistFailed, store := store, effects := [] }

/-- Reply text of `MockLLMClient.generate` (src/infrastructure/llm/mock_llm_client.py)
for a given prompt; `LLMService.process_query` returns this text. -/
def mock_llm_response (prompt : String) : String :=
  "This is a mock response to the question: \x27" ++ prompt ++ "\x27\n\n" ++
  "The answer is based on my understanding of the question. " ++
  "In a real implementation, this would be replaced with an actual LLM response."

/-- `TicketProcessor.process_ticket` (src/services/ticket_processor_service.py) run
to completion on a store: load the ticket, transition to PROCESSING, ask the LLM,
transition to DONE with the answer. Any error is caught and logged, leaving the
store as the last successful step left it. `llm` models `LLMService.process_query`;
`t_processing` and `t_done` are the `datetime.now()` readings of the two updates. -/
def process_ticket (llm : String → String) (store : TicketStore) (ticket_id : String)
    (t_processing t_done : Nat) : TicketStore :=
  match get_ticket_data store ticket_id with
  | .error _ => store
  | .ok t =>
    match update_ticket_status store ticket_id .processing t_processing with
    | .error _ => store
    | .ok store1 =>
      match update_ticket_answer store1 ticket_id (llm t.question) t_done with
      | .error _ => store1
      | .ok store2 => store2

/-- The two ticket mutations the processor drives through the Ticket Service:
`update_ticket_status(id, PROCESSING)` and `update_ticket_answer(id, answer)`. -/
inductive ProcOp
  | setProcessing (now : Nat)
  | setAnswerDone (answer : String) (now : Nat)
deriving DecidableEq, Repr

/-- Effect of one processor-driven service call on the ticket itself
(the field mutations of `update_ticket_status` / `update_ticket_answer`). -/
def applyProcOp (t : Ticket) : ProcOp → Ticket
  | .setProcessing now => t.with_status .processing now
  | .setAnswerDone ans now => t.with_answer ans now

/-! Cooperative scheduling model of the consumer loop.

`RedisStreamConsumer.subscribe` (src/infrastructure/messaging/redis_stream.py)
yields each payload to the caller and issues `XACK` only after the caller
resumes the iterator. The caller, `TicketProcessor.start_processing`, reacts to
each payload by `asyncio.create_task(self.process_ticket(ticket_id))` and
immediately resumes the iterator. We model the asyncio event loop as a FIFO
ready queue of coroutines: every awaited action suspends the running coroutine
(requeueing it at the back), while `create_task` enqueues the new task and the
current coroutine keeps running. -/

/-- Atomic awaited steps of the consumer loop and of a `process_ticket` task. -/
inductive Action
  | deliver (msgId : Nat) (ticket_id : String)
  | spawnTask (ticket_id : String)
  | xack (msgId : Nat)
  | loadTicket (ticket_id : String)
  | setProcessing (ticket_id : String)
  | llmCall (ticket_id : String)
  | setDone (ticket_id : String)
deriving DecidableEq, Repr

/-- Await points of one `process_ticket(ticket_id)` task, in program order:
`get_ticket_data`, `update_ticket_status(PROCESSING)`, `process_query`,
`update_ticket_answer`. -/
def process_ticket_prog (ticket_id : String) : List Action :=
  [.loadTicket ticket_id, .setProcessing ticket_id, .llmCall ticket_id, .setDone ticket_id]

/-- Await points of the fused `subscribe` generator / `start_processing` loop,
per delivered record: the blocking `XREADGROUP` delivering the record (the
payload is yielded to the caller), the caller spawning the processing task,
then — once the caller resumes the iterator — the `XACK`. -/
def consumer_loop_prog : List (Nat × String) → List Action
  | [] => []
  | (msgId, ticket_id) :: rest =>
    .deliver msgId ticket_id :: .spawnTask ticket_id :: .xack msgId ::
      consumer_loop_prog rest

/-- FIFO event loop: run the front coroutine for one action. Awaited actions
suspend it to the back of the queue; `spawnTask` enqueues a fresh
`process_ticket` task and lets the current coroutine continue (as
`asyncio.create_task` does). `fuel` bounds the number of steps. -/
def run_sched : Nat → List (List Action) → List Action
  | 0, _ => []
  | _ + 1, [] => []
  | fuel + 1, prog :: queue =>
    match prog with
    | [] => run_sched fuel queue
    | .spawnTask tid :: rest =>
        .spawnTask tid :: run_sched fuel (rest :: (queue ++ [process_ticket_prog tid]))
    | a :: rest =>
        a :: run_sched fuel (queue ++ [rest])

/-- Store effect of one scheduled action: the two status-changing awaits go
through the Ticket Service operations (errors are swallowed by the processor);
the question sent to the LLM is immutable, so rereading it at the `setDone`
step agrees with the value loaded at `loadTicket`. `clock` is the current
`datetime.now()` reading. -/
def replay_action (llm : String → String) (store : TicketStore) (clock : Nat) :
    Action → TicketStore
  | .setProcessing tid => (update_ticket_status store tid .processing clock).toOption.getD store
  | .setDone tid =>
      match get_ticket_data store tid with
      | .ok t => (update_ticket_answer store tid (llm t.question) clock).toOption.getD store
      | .error _ => store
  | _ => store

/-- Replay a schedule against the store, the clock advancing by one per action. -/
def replay (llm : String → String) : List Action → TicketStore → Nat → TicketStore
  | [], store, _ => store
  | a :: rest, store, clock => replay llm rest (replay_action llm store clock a) (clock + 1)

/-! Retry model of `RedisTicketRepository.get_ticket` over a flaky backend. -/

/-- Outcome of one underlying Redis `GET` of a ticket key. -/
inductive BackendReply
  | failure
  | notFound
  | value (rec : TicketRecord)
deriving Repr

/-- The `DatabaseException` surfaced after retries are exhausted. -/
inductive StorageError
  | storageUnavailable
deriving DecidableEq, Repr

/-- Observable outcome of one `get_ticket` call over a flaky backend: the
returned value or surfaced error, the delays slept between attempts (in units
of 0.1 s, the `retry_delay` of the code), and how many backend reads were issued. -/
structure GetResult where
  result : Except StorageError (Option Ticket)
  sleeps : List Nat
  attempts : Nat
deriving Repr

/-- `max_retries` in `RedisTicketRepository.get_ticket`. -/
def max_retries : Nat := 3

/-- `retry_delay` in `RedisTicketRepository.get_ticket`, in units of 0.1 s. -/
def retry_delay : Nat := 1

/-- Outcome of the `try` body of one attempt: `some r` when it returns
(absent key gives `none`, a stored record gives the validated ticket), `none`
when it raises (backend failure, or a stored record failing validation). -/
def attempt_outcome (backend : Nat → BackendReply) (attempt : Nat) :
    Option (Option Ticket) :=
  match backend attempt with
  | .notFound => some none
  | .value rec => (Ticket.from_dict rec).map some
  | .failure => none

/-- The retry loop of `RedisTicketRepository.get_ticket`: on an exception at
the last attempt (`fuel = 0`, i.e. `attempt == max_retries - 1`) the
`DatabaseException` is raised; otherwise sleep `retry_delay * 2 ** attempt`
and retry. -/
def get_ticket_retry_go (backend : Nat → BackendReply) (attempt fuel : Nat) : GetResult :=
  match attempt_outcome backend attempt, fuel with
  | some r, _ => { result := .ok r, sleeps := [], attempts := 1 }
  | none, 0 => { result := .error .storageUnavailable, sleeps := [], attempts := 1 }
  | none, f + 1 =>
    let rest := get_ticket_retry_go backend (attempt + 1) f
    { result := rest.result,
      sleeps := retry_delay * 2 ^ attempt :: rest.sleeps,
      attempts := rest.attempts + 1 }

/-- `RedisTicketRepository.get_ticket` over a flaky backend: the loop
`for attempt in range(max_retries)` starting at attempt 0. -/
def get_ticket_with_retry (backend : Nat → BackendReply) : GetResult :=
  get_ticket_retry_go backend 0 (max_retries - 1)

/-- Valid stores: every persisted record deserializes. Every write the system
performs stores `to_dict` output, which always validates, so all stores
reachable through the system are valid. -/
def StoreValid (store : TicketStore) : Prop :=
  ∀ p ∈ store, (Ticket.from_dict p.2).isSome

/-- Repeated `create_ticket` calls over a healthy backend, one per
`(question, uuid, now)` triple. -/
def run_creates : TicketStore → List (String × String × Nat) → TicketStore
  | store, [] => store
  | store, (question, uuid, now) :: rest =>
    run_creates (create_ticket store question uuid now true true).store rest

/-- Store reached by `create_ticket("2+2?")` with fresh id `t1` at time 0. -/
def store_after_create : TicketStore :=
  (create_ticket [] "2+2?" "t1" 0 true true).store

/-- Store reached after the `process_ticket` run of the first delivery
(status updates at times 1 and 2): the ticket is DONE with the mock answer. -/
def store_after_first_processing : TicketStore :=
  process_ticket mock_llm_response store_after_create "t1" 1 2

/-- Store reached after the first step — `update_ticket_status(id, PROCESSING)` —
of a redelivered `process_ticket` run for the same record, at time 3. -/
def store_after_redelivery_step : TicketStore :=
  (update_ticket_status store_after_first_processing "t1" .processing 3).toOption.getD
    store_after_first_processing

/-- Event-loop schedule for one delivered `ticket.created` record
(message id 1, ticket id `t1`). -/
def c1_trace : List Action := run_sched 16 [consumer_loop_prog [(1, "t1")]]

/-! Basic lemmas about the store and serialization. -/

/-- Deserializing a serialized ticket restores it exactly. -/
theorem from_dict_to_dict (t : Ticket) : Ticket.from_dict t.to_dict = some t := by
  cases t with
  | mk id question status created_at updated_at answer note =>
    cases status <;> rfl

/-- Reading back the key just written returns the written value. -/
theorem redis_get_set_same (store : TicketStore) (key : String) (value : TicketRecord) :
    redis_get (redis_set store key value) key = some value := by
  simp [redis_get, redis_set, List.find?]

/-- Reading a different key is unaffected by a write. -/
theorem redis_get_set_other (store : TicketStore) (key1 key2 : String)
    (value : TicketRecord) (h : key2 ≠ key1) :
    redis_get (redis_set store key1 value) key2 = redis_get store key2 := by
  simp [redis_get, redis_set, List.find?]
  have : (key1 == key2) = false := by
    simp [beq_iff_eq]
    exact fun hc => h hc.symm
  simp [this]

/-- Saving a ticket and retrieving it by its id yields the same ticket. -/
theorem get_save_ticket (store : TicketStore) (t : Ticket) :
    get_ticket (save_ticket store t) t.id = some t := by
  simp [get_ticket, save_ticket, redis_get_set_same, from_dict_to_dict]

/-- Ticket keys are injective in the ticket id. -/
theorem ticket_key_inj {a b : String} (h : ticket_key a = ticket_key b) : a = b := by
  have hd := congrArg String.data h
  simp [ticket_key, String.data_append] at hd
  exact String.ext hd

/-- Saving a ticket leaves every other id unchanged. -/
theorem get_ticket_save_other (store : TicketStore) (t : Ticket) (other : String)
    (h : other ≠ t.id) :
    get_ticket (save_ticket store t) other = get_ticket store other := by
  unfold get_ticket save_ticket
  rw [redis_get_set_other]
  intro hk
  exact h (ticket_key_inj hk)

/-- An id that no `create_ticket` call used is untouched by a run of creations. -/
theorem get_run_creates_not_created (creations : List (String × String × Nat))
    (store : TicketStore) (ticket_id : String)
    (h : ticket_id ∉ creations.map (fun c => c.2.1)) :
    get_ticket (run_creates store creations) ticket_id = get_ticket store ticket_id := by
  induction creations generalizing store with
  | nil => rfl
  | cons c rest ih =>
    obtain ⟨question, uuid, now⟩ := c
    simp only [List.map, List.mem_cons, not_or] at h
    simp only [run_creates]
    rw [ih _ h.2]
    show get_ticket (save_ticket store (created_ticket question uuid now)) ticket_id = _
    exact get_ticket_save_other _ _ _ (by simpa [created_ticket] using h.1)

/-- The retry loop issues at most one backend read per unit of fuel plus one. -/
theorem get_ticket_retry_go_attempts (backend : Nat → BackendReply) (fuel : Nat) :
    ∀ attempt, (get_ticket_retry_go backend attempt fuel).attempts ≤ fuel + 1 := by
  induction fuel with
  | zero =>
    intro attempt
    unfold get_ticket_retry_go
    cases attempt_outcome backend attempt <;> simp
  | succ f ih =>
    intro attempt
    unfold get_ticket_retry_go
    cases h : attempt_outcome backend attempt with
    | some r => simp
    | none =>
      simp only [h]
      have := ih (attempt + 1)
      omega

/-- Updating (upserting) a ticket and retrieving it by its id yields it back. -/
theorem get_update_ticket (store : TicketStore) (t : Ticket) :
    get_ticket (update_ticket store t) t.id = some t := by
  simpa [update_ticket] using get_save_ticket store t

/-! Claim theorems. -/

/-- C9: round-trip — a ticket persisted to the Ticket Store (via `save_ticket`,
or via the semantically identical `update_ticket`) and then retrieved by its id
is returned unchanged: identical `id`, `question`, `status`, `answer` (and, the
ticket being unchanged, the timestamps have not moved backward). -/
theorem save_get_roundtrip (store : TicketStore) (t : Ticket) :
    get_ticket (save_ticket store t) t.id = some t
    ∧ get_ticket (update_ticket store t) t.id = some t := by
  refine ⟨get_save_ticket store t, ?_⟩
  simpa [update_ticket] using get_save_ticket store t

/-- C7: for every question, `create_ticket` builds a ticket with
`status = UNINITIALIZED`, `created_at = updated_at = now`, no answer, persists
it under the fresh id, and `get_ticket_status` immediately afterwards — before
the processor runs — returns `UNINITIALIZED`; every other id is untouched. -/
theorem create_ticket_initial_state (store : TicketStore) (question uuid : String)
    (now : Nat) (hfresh : get_ticket store uuid = none) :
    get_ticket store uuid = none
    ∧ (create_ticket store question uuid now true true).result = .ok uuid
    ∧ get_ticket (create_ticket store question uuid now true true).store uuid =
        some (created_ticket question uuid now)
    ∧ (created_ticket question uuid now).status = .uninitialized
    ∧ (created_ticket question uuid now).created_at = now
    ∧ (created_ticket question uuid now).updated_at = now
    ∧ (created_ticket question uuid now).answer = none
    ∧ get_ticket_status (create_ticket store question uuid now true true).store uuid =
        .ok .uninitialized
    ∧ (∀ other, other ≠ uuid →
        get_ticket (create_ticket store question uuid now true true).store other =
          get_ticket store other) := by
  have hget : get_ticket (create_ticket store question uuid now true true).store uuid =
      some (created_ticket question uuid now) := by
    simpa [create_ticket] using get_save_ticket store (created_ticket question uuid now)
  refine ⟨hfresh, rfl, hget, rfl, rfl, rfl, rfl, ?_, ?_⟩
  · simp [get_ticket_status, get_ticket_data, hget, created_ticket, Except.map]
  · intro other hne
    show get_ticket (save_ticket store (created_ticket question uuid now)) other = _
    exact get_ticket_save_other _ _ _ (by simpa [created_ticket] using hne)

/-- Witness for C7 at a concrete fresh store. -/
theorem create_ticket_initial_state_witness :
    get_ticket_status (create_ticket [] "2+2?" "t1" 0 true true).store "t1" =
      .ok .uninitialized :=
  (create_ticket_initial_state [] "2+2?" "t1" 0 rfl).2.2.2.2.2.2.2.1

/-- C10: `update_ticket_status` mutates only `status` and `updated_at` — the
ticket keeps its `id`, `question`, `created_at`, `answer` (a previously set
answer survives) and `note`, and every other id in the store is untouched. -/
theorem update_ticket_status_frame (store : TicketStore) (ticket_id : String)
    (status : TicketStatus) (now : Nat) (t : Ticket)
    (h : get_ticket store ticket_id = some t) :
    update_ticket_status store ticket_id status now =
      .ok (update_ticket store (t.with_status status now))
    ∧ get_ticket (update_ticket store (t.with_status status now)) t.id =
        some (t.with_status status now)
    ∧ (t.with_status status now).id = t.id
    ∧ (t.with_status status now).question = t.question
    ∧ (t.with_status status now).created_at = t.created_at
    ∧ (t.with_status status now).answer = t.answer
    ∧ (t.with_status status now).note = t.note
    ∧ (t.with_status status now).status = status
    ∧ (t.with_status status now).updated_at = now
    ∧ (∀ other, other ≠ t.id →
        get_ticket (update_ticket store (t.with_status status now)) other =
          get_ticket store other) := by
  refine ⟨by simp [update_ticket_status, get_ticket_data, h, Except.map], ?_, rfl, rfl, rfl, rfl, rfl,
    rfl, rfl, ?_⟩
  · simpa [update_ticket] using get_save_ticket store (t.with_status status now)
  · intro other hne
    show get_ticket (save_ticket store (t.with_status status now)) other = _
    exact get_ticket_save_other _ _ _ (by simpa [Ticket.with_status] using hne)

/-- Witness for C10 at a concrete store holding one ticket. -/
theorem update_ticket_status_frame_witness :
    update_ticket_status store_after_create "t1" .processing 1 =
      .ok (update_ticket store_after_create
        ((created_ticket "2+2?" "t1" 0).with_status .processing 1)) :=
  (update_ticket_status_frame store_after_create "t1" .processing 1
    (created_ticket "2+2?" "t1" 0) rfl).1

/-- C2: in every execution of `create_ticket`, the publish of the
`ticket.created` event, when it happens at all, happens strictly after the
successful persist (the save is effect 0, the publish effect 1), and at that
point the consumer can already find the ticket in the store; the event is
never published without a prior successful persist. -/
theorem create_persists_before_publish (store : TicketStore) (question uuid : String)
    (now : Nat) (saveOk publishOk : Bool)
    (h : CreateEffect.publishedCreated uuid ∈
      (create_ticket store question uuid now saveOk publishOk).effects) :
    (create_ticket store question uuid now saveOk publishOk).effects =
      [.savedTicket (created_ticket question uuid now), .publishedCreated uuid]
    ∧ get_ticket (create_ticket store question uuid now saveOk publishOk).store uuid =
        some (created_ticket question uuid now) := by
  cases saveOk with
  | false => simp [create_ticket] at h
  | true =>
    cases publishOk with
    | false => simp [create_ticket] at h
    | true =>
      refine ⟨by simp [create_ticket], ?_⟩
      simpa [create_ticket] using get_save_ticket store (created_ticket question uuid now)

/-- Witness for C2 at a concrete successful creation. -/
theorem create_persists_before_publish_witness :
    (create_ticket [] "2+2?" "t1" 0 true true).effects =
      [.savedTicket (created_ticket "2+2?" "t1" 0), .publishedCreated "t1"] :=
  (create_persists_before_publish [] "2+2?" "t1" 0 true true (by decide)).1

/-- C6: `get_ticket_data` (and its projection `get_ticket_status`) fails with
`TicketNotFound` exactly when no record is present under the key of that id in
the store (stated over valid stores, which all stores written by the system
are); in particular it fails for every id that no `create_ticket` call ever
used, and returns the stored ticket otherwise. -/
theorem get_ticket_data_notfound_spec (store : TicketStore) (ticket_id : String) :
    (StoreValid store →
      (get_ticket_data store ticket_id = .error (.ticketNotFound ticket_id) ↔
        redis_get store (ticket_key ticket_id) = none))
    ∧ (get_ticket_status store ticket_id = .error (.ticketNotFound ticket_id) ↔
        get_ticket_data store ticket_id = .error (.ticketNotFound ticket_id))
    ∧ (∀ t, get_ticket store ticket_id = some t → get_ticket_data store ticket_id = .ok t)
    ∧ (∀ creations : List (String × String × Nat),
        ticket_id ∉ creations.map (fun c => c.2.1) →
        get_ticket_data (run_creates [] creations) ticket_id =
          .error (.ticketNotFound ticket_id)) := by
  refine ⟨?_, ?_, ?_, ?_⟩
  · intro hv
    constructor
    · intro h
      cases hf : store.find? (fun p => p.1 == ticket_key ticket_id) with
      | none => simp [redis_get, hf]
      | some p =>
        exfalso
        have hmem := List.mem_of_find?_eq_some hf
        have hval := hv p hmem
        cases ht : Ticket.from_dict p.2 with
        | none => rw [ht] at hval; simp at hval
        | some t =>
          have hg : get_ticket store ticket_id = some t := by
            simp [get_ticket, redis_get, hf, ht]
          simp [get_ticket_data, hg] at h
    · intro hr
      simp [get_ticket_data, get_ticket, hr]
  · cases hd : get_ticket_data store ticket_id <;> simp [get_ticket_status, hd, Except.map]
  · intro t h
    simp [get_ticket_data, h]
  · intro creations h
    have h0 : get_ticket (run_creates [] creations) ticket_id = none := by
      rw [get_run_creates_not_created creations [] ticket_id h]
      rfl
    simp [get_ticket_data, h0]

/-- Witness for C6: an id never passed to `create_ticket` is reported not found. -/
theorem get_ticket_data_notfound_spec_witness :
    get_ticket_data (run_creates [] [("2+2?", "t1", 0)]) "t2" =
      .error (.ticketNotFound "t2") :=
  (get_ticket_data_notfound_spec [] "t2").2.2.2 [("2+2?", "t1", 0)] (by decide)

/-- C8: `get_ticket` applies bounded retry with exponential backoff over a
flaky backend: at most `max_retries = 3` backend reads; the delay slept after
failed attempt `k` is `retry_delay * 2 ** k`, i.e. the base delay doubling each
attempt; `StorageUnavailable` is surfaced only once all three attempts failed;
and an absent key is a valid `ok none` result — distinguished from a backend
error — on whichever attempt first gets through, as is a found record. -/
theorem get_ticket_retry_spec (backend : Nat → BackendReply) :
    (get_ticket_with_retry backend).attempts ≤ max_retries
    ∧ (backend 0 = .failure → backend 1 = .failure → backend 2 = .failure →
        (get_ticket_with_retry backend).result = .error .storageUnavailable
        ∧ (get_ticket_with_retry backend).sleeps = [retry_delay, retry_delay * 2])
    ∧ (backend 0 = .notFound →
        (get_ticket_with_retry backend).result = .ok none
        ∧ (get_ticket_with_retry backend).sleeps = [])
    ∧ (backend 0 = .failure → backend 1 = .notFound →
        (get_ticket_with_retry backend).result = .ok none
        ∧ (get_ticket_with_retry backend).sleeps = [retry_delay])
    ∧ (backend 0 = .failure → backend 1 = .failure → backend 2 = .notFound →
        (get_ticket_with_retry backend).result = .ok none
        ∧ (get_ticket_with_retry backend).sleeps = [retry_delay, retry_delay * 2])
    ∧ (∀ rec t, backend 0 = .value rec → Ticket.from_dict rec = some t →
        (get_ticket_with_retry backend).result = .ok (some t)) := by
  refine ⟨?_, ?_, ?_, ?_, ?_, ?_⟩
  · have := get_ticket_retry_go_attempts backend 2 0
    simpa [get_ticket_with_retry, max_retries] using this
  · intro h0 h1 h2
    simp [get_ticket_with_retry, max_retries, get_ticket_retry_go, attempt_outcome,
      h0, h1, h2, retry_delay]
  · intro h0
    simp [get_ticket_with_retry, max_retries, get_ticket_retry_go, attempt_outcome, h0]
  · intro h0 h1
    simp [get_ticket_with_retry, max_retries, get_ticket_retry_go, attempt_outcome,
      h0, h1, retry_delay]
  · intro h0 h1 h2
    simp [get_ticket_with_retry, max_retries, get_ticket_retry_go, attempt_outcome,
      h0, h1, h2, retry_delay]
  · intro rec t h0 ht
    simp [get_ticket_with_retry, max_retries, get_ticket_retry_go, attempt_outcome, h0, ht]

/-- Witness for C8 at a backend that fails every attempt. -/
theorem get_ticket_retry_spec_witness :
    (get_ticket_with_retry (fun _ => .failure)).result = .error .storageUnavailable
    ∧ (get_ticket_with_retry (fun _ => .failure)).sleeps = [retry_delay, retry_delay * 2] :=
  (get_ticket_retry_spec (fun _ => .failure)).2.1 rfl rfl rfl

/-- C5 (amended): `update_ticket_answer` loads the ticket, sets the answer,
forces `status = DONE`, refreshes `updated_at` and persists, leaving the other
fields unchanged; and among the Ticket Service calls the processor actually
makes — `process_ticket` only ever invokes `update_ticket_status` with
`PROCESSING` — it is the only one that can yield a DONE ticket: the
status update made by the processor always leaves the ticket PROCESSING. The original
unrestricted claim fails because the exposed `update_ticket_status` itself
forces DONE when called with status DONE (see the counterexample). -/
theorem update_ticket_answer_spec (store : TicketStore) (ticket_id answer : String)
    (now : Nat) (t : Ticket) (h : get_ticket store ticket_id = some t) :
    update_ticket_answer store ticket_id answer now =
      .ok (update_ticket store (t.with_answer answer now))
    ∧ get_ticket (update_ticket store (t.with_answer answer now)) t.id =
        some (t.with_answer answer now)
    ∧ (t.with_answer answer now).answer = some answer
    ∧ (t.with_answer answer now).status = .done
    ∧ (t.with_answer answer now).updated_at = now
    ∧ (t.with_answer answer now).id = t.id
    ∧ (t.with_answer answer now).question = t.question
    ∧ (t.with_answer answer now).created_at = t.created_at
    ∧ (∀ store1, update_ticket_status store ticket_id .processing now = .ok store1 →
        (get_ticket store1 t.id).map (·.status) = some .processing) := by
  refine ⟨by simp [update_ticket_answer, get_ticket_data, h, Except.map],
    get_update_ticket store (t.with_answer answer now), rfl, rfl, rfl, rfl, rfl, rfl, ?_⟩
  intro store1 h1
  have h2 : update_ticket store (t.with_status .processing now) = store1 := by
    simpa [update_ticket_status, get_ticket_data, h, Except.map] using h1
  rw [← h2]
  have h3 := get_update_ticket store (t.with_status .processing now)
  simp only [Ticket.with_status] at h3 ⊢
  rw [h3]
  rfl

/-- Witness for C5 at a concrete store holding one ticket. -/
theorem update_ticket_answer_spec_witness :
    update_ticket_answer store_after_create "t1" "4" 1 =
      .ok (update_ticket store_after_create
        ((created_ticket "2+2?" "t1" 0).with_answer "4" 1)) :=
  (update_ticket_answer_spec store_after_create "t1" "4" 1
    (created_ticket "2+2?" "t1" 0) rfl).1

/-- C5 counterexample: `update_ticket_status` — an exposed Ticket Service
operation distinct from `update_ticket_answer` — called with status DONE on a
freshly created ticket persists a DONE ticket, so `update_ticket_answer` is
not the only operation through which the status of a ticket can become DONE. -/
theorem update_status_done_counterexample :
    ((update_ticket_status store_after_create "t1" .done 5).toOption.bind
      (fun store1 => (get_ticket store1 "t1").map (·.status))) = some .done := by
  rfl

/-- C3 counterexample: after `create_ticket("2+2?")`, one completed processing
run, and the first step — `update_ticket_status(id, PROCESSING)` — of a
redelivery-driven duplicate run, the persisted ticket has
`status = PROCESSING`, which is not DONE, while still carrying its answer:
"answer is None/absent unless status == DONE" fails on redelivery-reachable
states. -/
theorem redelivery_answer_counterexample :
    (get_ticket store_after_redelivery_step "t1").map (fun t => (t.status, t.answer)) =
      some (.processing, some (mock_llm_response "2+2?"))
    ∧ TicketStatus.processing ≠ TicketStatus.done
    ∧ some (mock_llm_response "2+2?") ≠ (none : Option String) :=
  ⟨rfl, by decide, by simp⟩

/-- C3 (amended): under the per-ticket mutations the processor drives through
the Ticket Service, a DONE ticket always carries a non-absent answer — this
half survives arbitrary redelivery; and in executions without duplicate
redelivery, i.e. along every prefix of the single processing run
(PROCESSING at `t1`, then DONE with the answer at `t2`) of a freshly created
ticket, the answer is absent unless the status is DONE. Under redelivery the
second half fails: a duplicate run moves a DONE ticket back to PROCESSING with
its answer retained (see the counterexample). -/
theorem done_answer_invariant :
    (∀ (t : Ticket) (ops : List ProcOp), (t.status = .done → t.answer.isSome) →
      (ops.foldl applyProcOp t).status = .done → (ops.foldl applyProcOp t).answer.isSome)
    ∧ (∀ (question uuid answer : String) (now t1 t2 n : Nat),
        ((([ProcOp.setProcessing t1, ProcOp.setAnswerDone answer t2]).take n).foldl
            applyProcOp (created_ticket question uuid now)).answer.isSome →
        ((([ProcOp.setProcessing t1, ProcOp.setAnswerDone answer t2]).take n).foldl
            applyProcOp (created_ticket question uuid now)).status = .done) := by
  constructor
  · intro t ops
    induction ops generalizing t with
    | nil => exact fun h => h
    | cons op rest ih =>
      intro h
      simp only [List.foldl]
      apply ih
      cases op with
      | setProcessing now => intro hd; simp [applyProcOp, Ticket.with_status] at hd
      | setAnswerDone ans now => intro hd; simp [applyProcOp, Ticket.with_answer]
  · intro question uuid answer now t1 t2 n
    match n with
    | 0 => intro h; simp [created_ticket] at h
    | 1 => intro h; simp [applyProcOp, Ticket.with_status, created_ticket, List.take] at h
    | (k + 2) => intro h; simp [applyProcOp, Ticket.with_status, Ticket.with_answer, List.take]

/-- Witness for C3 at a concrete run reaching DONE: the answer is present. -/
theorem done_answer_invariant_witness :
    ([ProcOp.setAnswerDone "4" 1].foldl applyProcOp (created_ticket "2+2?" "t1" 0)).answer.isSome :=
  done_answer_invariant.1 (created_ticket "2+2?" "t1" 0) [ProcOp.setAnswerDone "4" 1]
    (by decide) (by decide)

/-- C4 counterexample: with duplicate redelivery of the same `ticket.created`
record, the ticket is DONE after the first completed run and moves back to
PROCESSING on the first step of the duplicate run — a transition from DONE to
a strictly earlier state in the defined order, refuting monotonicity for the
redelivery executions the claim includes. -/
theorem redelivery_status_regression_counterexample :
    (get_ticket store_after_first_processing "t1").map (·.status) = some .done
    ∧ store_after_redelivery_step =
        (update_ticket_status store_after_first_processing "t1" .processing 3).toOption.getD
          store_after_first_processing
    ∧ (get_ticket store_after_redelivery_step "t1").map (·.status) = some .processing
    ∧ TicketStatus.rank .processing < TicketStatus.rank .done :=
  ⟨rfl, rfl, rfl, by decide⟩

/-- C4 (amended): no processor-driven service call ever moves a ticket back to
UNINITIALIZED, and within a single (non-redelivered) processing run of a
freshly created ticket the status is monotone in the order
UNINITIALIZED → PROCESSING → DONE. Monotonicity fails only under duplicate
redelivery, which can move a DONE ticket back to PROCESSING (see the
counterexample). -/
theorem status_monotonic_amended :
    (∀ (t : Ticket) (op : ProcOp), (applyProcOp t op).status ≠ .uninitialized)
    ∧ (∀ (question uuid answer : String) (now t1 t2 : Nat),
        (created_ticket question uuid now).status.rank ≤
          (applyProcOp (created_ticket question uuid now) (.setProcessing t1)).status.rank
        ∧ (applyProcOp (created_ticket question uuid now) (.setProcessing t1)).status.rank ≤
            (applyProcOp (applyProcOp (created_ticket question uuid now) (.setProcessing t1))
              (.setAnswerDone answer t2)).status.rank) := by
  constructor
  · intro t op
    cases op <;> simp [applyProcOp, Ticket.with_status, Ticket.with_answer]
  · intro question uuid answer now t1 t2
    refine ⟨?_, ?_⟩ <;>
      simp [applyProcOp, Ticket.with_status, Ticket.with_answer, created_ticket,
        TicketStatus.rank]

/-- Witness for C4: the PROCESSING update of the processor does not reach
UNINITIALIZED at a concrete ticket. -/
theorem status_monotonic_amended_witness :
    (applyProcOp (created_ticket "2+2?" "t1" 0) (.setProcessing 1)).status ≠ .uninitialized :=
  status_monotonic_amended.1 (created_ticket "2+2?" "t1" 0) (.setProcessing 1)

/-- C1 (amended): the consumer acknowledges a record once the caller has
resumed the iterator after the yielded payload — i.e. right after
`start_processing` spawns the background `process_ticket` task — not after the
work completes: in the event-loop schedule of one delivered record, delivery
is step 0, the task spawn step 1, the `XACK` step 2, and the DONE transition
only step 6: the acknowledgment precedes the completed processing. -/
theorem subscribe_ack_timing (msgId : Nat) (ticket_id : String) :
    (run_sched 16 [consumer_loop_prog [(msgId, ticket_id)]])[0]? =
      some (.deliver msgId ticket_id)
    ∧ (run_sched 16 [consumer_loop_prog [(msgId, ticket_id)]])[1]? =
      some (.spawnTask ticket_id)
    ∧ (run_sched 16 [consumer_loop_prog [(msgId, ticket_id)]])[2]? = some (.xack msgId)
    ∧ (run_sched 16 [consumer_loop_prog [(msgId, ticket_id)]])[6]? =
      some (.setDone ticket_id) :=
  ⟨rfl, rfl, rfl, rfl⟩

/-- C1 counterexample: in the event-loop execution of one `ticket.created`
record (message id 1, ticket `t1`), the `XACK` happens strictly before the
`update_ticket_answer` step that completes the ticket to DONE; at the moment
of the acknowledgment the ticket is still UNINITIALIZED, and it reaches DONE
only by the end of the schedule — the acknowledgment precedes the durably
completed work. -/
theorem ack_before_done_counterexample :
    c1_trace.indexOf (.xack 1) < c1_trace.indexOf (.setDone "t1")
    ∧ Action.setDone "t1" ∈ c1_trace
    ∧ (get_ticket (replay mock_llm_response
          (c1_trace.take (c1_trace.indexOf (.xack 1) + 1)) store_after_create 1)
        "t1").map (·.status) = some .uninitialized
    ∧ (get_ticket (replay mock_llm_response c1_trace store_after_create 1)
        "t1").map (·.status) = some .done :=
  ⟨by decide, by decide, rfl, rfl⟩

end TicketSystem
